import Mathlib

/- Verification of the Superior Propane / Superior Plus Propane integrations.

Shallow embedding conventions:
  * Python floats are modelled as exact rationals (ℚ).
  * Python dicts keyed by strings are modelled as ordered association lists
    (`List (String × α)`) with `mget`/`mset`, which mirror `d.get(k)` and
    `d[k] = v` (insertion order preserving, like a Python dict).
  * A value that can be either a scraped string or a number is a `PVal`;
    `pyFloat` models the Python `float(x)` coercion (returning `none` where
    Python raises `ValueError`/`TypeError`).
  * Fields written by `tank["key"] = value` are modelled as `Option` fields of
    the `Tank` structure (`none` = key absent).
-/

namespace SuperiorPropane

/-- A Python value that can appear as a tank-record field: a string (as scraped)
or a float (as written back by the coordinator). -/
inductive PVal where
  | str (s : String)
  | num (q : ℚ)
deriving DecidableEq, Repr

/-- The character-level part of parsing a Python float literal: optional
surrounding whitespace, optional sign, digits with an optional single decimal
point.  Returns the sign bit, integer part, fraction digits value and fraction
length; `none` where Python `float(s)` raises `ValueError` (e.g. on the
`"unknown"` sentinel). -/
def parsePyFloatParts (s : String) : Option (Bool × ℕ × ℕ × ℕ) :=
  let cs := (s.toList.dropWhile Char.isWhitespace).reverse.dropWhile Char.isWhitespace
    |>.reverse
  let signAndRest : Bool × List Char :=
    match cs with
    | '-' :: r => (true, r)
    | '+' :: r => (false, r)
    | r => (false, r)
  let neg := signAndRest.1
  let rest := signAndRest.2
  let intPart := rest.takeWhile Char.isDigit
  let rest2 := rest.dropWhile Char.isDigit
  let natVal : List Char → ℕ := fun l => l.foldl (fun a c => a * 10 + (c.toNat - 48)) 0
  match rest2 with
  | [] =>
      if intPart.isEmpty then none
      else some (neg, natVal intPart, 0, 0)
  | '.' :: frac =>
      if frac.all Char.isDigit ∧ ¬ (intPart.isEmpty ∧ frac.isEmpty) then
        some (neg, natVal intPart, natVal frac, frac.length)
      else none
  | _ => none

/-- Model of Python `float(s)` on a string: assembles the parsed parts into an
exact rational. -/
def parsePyFloat (s : String) : Option ℚ :=
  (parsePyFloatParts s).map (fun p =>
    (if p.1 then (-1 : ℚ) else 1) * ((p.2.1 : ℚ) + (p.2.2.1 : ℚ) / (10 : ℚ) ^ p.2.2.2))

/-- Evaluation helper: the char-level part is decided by `decide`, the rational
assembly by `norm_num`. -/
theorem parsePyFloat_eval (s : String) (neg : Bool) (i f k : ℕ)
    (h : parsePyFloatParts s = some (neg, i, f, k)) :
    parsePyFloat s = some ((if neg then (-1 : ℚ) else 1) * ((i : ℚ) + (f : ℚ) / 10 ^ k)) := by
  simp [parsePyFloat, h]

theorem parsePyFloat_eval_none (s : String) (h : parsePyFloatParts s = none) :
    parsePyFloat s = none := by
  simp [parsePyFloat, h]

/-- Model of Python `float(x)` on a tank-record value. -/
def pyFloat : PVal → Option ℚ
  | .num q => some q
  | .str s => parsePyFloat s

/-- Model of using a Python value as a `str` (a non-string raises
`AttributeError` at `.lower()` / `.split()` call sites). -/
def asStr : PVal → Option String
  | .str s => some s
  | .num _ => none

/-- `d.get(k)` on a string-keyed dict. -/
def mget {α : Type} (m : List (String × α)) (k : String) : Option α :=
  match m with
  | [] => none
  | (k', v) :: rest => if k' = k then some v else mget rest k

/-- `d[k] = v` on a string-keyed dict (updates in place, appends if absent —
insertion order preserving like a Python dict). -/
def mset {α : Type} (m : List (String × α)) (k : String) (v : α) : List (String × α) :=
  match m with
  | [] => [(k, v)]
  | (k', v') :: rest => if k' = k then (k, v) :: rest else (k', v') :: mset rest k v

/-- `self._consumption_totals.get(tank_id, 0.0)`. -/
def totalOf (m : List (String × ℚ)) (k : String) : ℚ :=
  (mget m k).getD 0

/- ## Constants (const.py; the two vendors' files define the same numeric
values for every constant used below, under gallon- vs liter-suffixed names) -/

def MIN_CONSUMPTION_PERCENTAGE : ℚ := 0.0001
def MAX_CONSUMPTION_PERCENTAGE : ℚ := 0.05
def ABSOLUTE_MIN_CONSUMPTION : ℚ := 0.01
def ABSOLUTE_MAX_CONSUMPTION : ℚ := 50.0
/-- `DEFAULT_MIN_CONSUMPTION_GALLONS` (Vendor A) = `DEFAULT_MIN_CONSUMPTION_LITERS` (Vendor B). -/
def DEFAULT_MIN_CONSUMPTION : ℚ := 0.01
/-- `DEFAULT_MAX_CONSUMPTION_GALLONS` (Vendor A) = `DEFAULT_MAX_CONSUMPTION_LITERS` (Vendor B). -/
def DEFAULT_MAX_CONSUMPTION : ℚ := 25.0
def DATA_VALIDATION_TOLERANCE : ℚ := 0.10
def TANK_SIZE_MIN : ℚ := 20.0
def TANK_SIZE_MAX : ℚ := 2000.0
def GALLONS_TO_CUBIC_FEET : ℚ := 36.39
def LITERS_TO_CUBIC_METERS : ℚ := 0.272297
def SECONDS_PER_HOUR : ℚ := 3600
def PERCENT_MULTIPLIER : ℚ := 100.0

/-- The Python builtin `max` on two floats. -/
def pymax (a b : ℚ) : ℚ := if a ≤ b then b else a

/-- The Python builtin `min` on two floats. -/
def pymin (a b : ℚ) : ℚ := if b ≤ a then b else a

theorem pymax_pos {a : ℚ} (b : ℚ) (h : 0 < a) : 0 < pymax a b := by
  unfold pymax; split <;> [linarith; exact h]

/- ## Tank record (the `dict[str, Any]` flowing Client → Coordinator → Sensor) -/

/-- One tank record.  Scraped fields are `Option PVal` (absent key = `none`);
derived fields written by the coordinator are typed by what it writes. -/
structure Tank where
  tank_id : Option String := none
  tank_number : Option ℕ := none
  address : Option String := none
  tank_size : Option PVal := none
  tank_type : Option PVal := none
  level : Option PVal := none
  current_gallons : Option PVal := none
  current_volume : Option PVal := none
  reading_date : Option String := none
  last_delivery : Option String := none
  total_consumption : Option PVal := none
  days_since_delivery : Option String := none
  consumption_total : Option ℚ := none
  consumption_rate : Option ℚ := none
  data_quality : Option String := none
  data_corrected : Option Bool := none
  consumption_anomaly : Option Bool := none
  refill_detected : Option Bool := none
deriving DecidableEq, Repr

/- ## Coordinator configuration and mutable state -/

/-- The threshold-relevant slice of the config entry, as read in `__init__`:
`adaptive_thresholds` (default True) and the two optional overrides. -/
structure Config where
  use_dynamic_thresholds : Bool
  min_threshold_override : Option ℚ
  max_threshold_override : Option ℚ
deriving DecidableEq, Repr

/-- The coordinator's mutable per-instance maps. -/
structure CoordState where
  previous_readings : List (String × ℚ)
  consumption_totals : List (String × ℚ)
  data_quality_flags : List (String × String)
deriving DecidableEq, Repr

/- ## `_calculate_dynamic_thresholds` (identical in both coordinator files) -/

def calculateDynamicThresholds (cfg : Config) (tank_size update_interval_hours : ℚ) : ℚ × ℚ :=
  -- Use overrides if BOTH are provided
  match cfg.min_threshold_override, cfg.max_threshold_override with
  | some mn, some mx => (mn, mx)
  | mno, mxo =>
    -- Use individual overrides with dynamic calculation for the other
    if mno.isSome || mxo.isSome then
      if cfg.use_dynamic_thresholds then
        let min_dynamic := pymax ABSOLUTE_MIN_CONSUMPTION
          (tank_size * MIN_CONSUMPTION_PERCENTAGE * update_interval_hours)
        let max_dynamic := pymin ABSOLUTE_MAX_CONSUMPTION
          (tank_size * MAX_CONSUMPTION_PERCENTAGE * update_interval_hours)
        (mno.getD min_dynamic, mxo.getD max_dynamic)
      else
        -- Use overrides with defaults for missing values
        (mno.getD DEFAULT_MIN_CONSUMPTION, mxo.getD DEFAULT_MAX_CONSUMPTION)
    else if !cfg.use_dynamic_thresholds then
      (DEFAULT_MIN_CONSUMPTION, DEFAULT_MAX_CONSUMPTION)
    else
      -- Dynamic calculation based on tank size, with absolute bounds for safety
      (pymax ABSOLUTE_MIN_CONSUMPTION
        (tank_size * MIN_CONSUMPTION_PERCENTAGE * update_interval_hours),
       pymin ABSOLUTE_MAX_CONSUMPTION
        (tank_size * MAX_CONSUMPTION_PERCENTAGE * update_interval_hours))

/- ## `_validate_tank_data` and `_process_tank_consumption`
The two coordinator files are line-for-line clones of each other except for
the literals bundled below, so both are embedded once, parameterized by a
`VendorParams` record whose two instances list exactly the differing
literals. -/

/-- The literals in which the two coordinators' validation/consumption code
differs: the unit-conversion factor, the flag spellings, and which record key
holds the reported current volume (`current_gallons` for Vendor A
superior_plus_propane, `current_volume` for Vendor B superior_propane). -/
structure VendorParams where
  factor : ℚ
  goodFlag : String
  unknownTankId : String
  unknownFlag : String
  getVol : Tank → Option PVal
  setVol : Tank → ℚ → Tank

/-- Vendor A (superior_plus_propane): gallons → cubic feet, lowercase flags,
volume key `current_gallons`. -/
def vendorA : VendorParams where
  factor := GALLONS_TO_CUBIC_FEET
  goodFlag := "good"
  unknownTankId := "unknown"
  unknownFlag := "unknown"
  getVol := fun t => t.current_gallons
  setVol := fun t q => { t with current_gallons := some (.num q) }

/-- Vendor B (superior_propane): liters → cubic meters, capitalized flags,
volume key `current_volume`. -/
def vendorB : VendorParams where
  factor := LITERS_TO_CUBIC_METERS
  goodFlag := "Good"
  unknownTankId := "Unknown"
  unknownFlag := "Unknown"
  getVol := fun t => t.current_volume
  setVol := fun t q => { t with current_volume := some (.num q) }

/-- `_validate_tank_data(tank)`: returns the boolean result together with the
updated `_data_quality_flags` map and the (possibly corrected) tank record.
In the correction branch the source writes `tank[volkey] = str(expected)`;
since Python 3 `str`/`float` round-trips a float exactly, the numeric payload
is stored directly (`PVal.num`). -/
def validateTankData (P : VendorParams) (flags : List (String × String)) (t : Tank) :
    Bool × List (String × String) × Tank :=
  let tank_id := t.tank_id.getD P.unknownTankId
  -- Validate tank size
  match pyFloat (t.tank_size.getD (.num 0)) with
  | none => (false, mset flags tank_id "invalid_tank_size", t)
  | some tank_size =>
    if ¬ (TANK_SIZE_MIN ≤ tank_size ∧ tank_size ≤ TANK_SIZE_MAX) then
      (false, mset flags tank_id "invalid_tank_size", t)
    else
      -- Validate level percentage
      match pyFloat (t.level.getD (.num (-1))) with
      | none => (false, mset flags tank_id "invalid_level", t)
      | some level =>
        if ¬ (0 ≤ level ∧ level ≤ 100) then
          (false, mset flags tank_id "invalid_level", t)
        else
          -- Validate consistency between level% and the current-volume field
          match pyFloat ((P.getVol t).getD (.num 0)) with
          | none => (false, mset flags tank_id "calculation_error", t)
          | some current =>
            let expected := if tank_size > 0 then (level * tank_size) / PERCENT_MULTIPLIER else 0
            if tank_size > 0 ∧ expected > 0 then
              let variance := |current - expected| / tank_size
              if variance > DATA_VALIDATION_TOLERANCE then
                (true, mset flags tank_id "data_inconsistent",
                 { P.setVol t expected with data_corrected := some true })
              else
                (true, mset flags tank_id P.goodFlag, t)
            else
              (true, flags, t)

/-- The consumption block of `_process_tank_consumption` (the
`if tank_id in self._previous_readings:` body): updates `_consumption_totals`
and sets `refill_detected` / `consumption_anomaly` on the record. -/
def consumptionBlock (P : VendorParams) (min_threshold max_threshold : ℚ)
    (tank_id : String) (current : ℚ) (prevs totals : List (String × ℚ)) (t : Tank) :
    List (String × ℚ) × Tank :=
  match mget prevs tank_id with
  | none => (totals, t)
  | some previous =>
    let consumption := previous - current
    -- Handle tank refills (negative consumption)
    if consumption < 0 then
      (totals, { t with refill_detected := some true })
    -- Check against dynamic thresholds
    else if consumption > 0 then
      let converted := consumption * P.factor
      let totals₀ := if mget totals tank_id = none then mset totals tank_id 0 else totals
      if consumption < min_threshold then
        -- low consumption: still record it for accuracy
        (mset totals₀ tank_id ((mget totals₀ tank_id).getD 0 + converted), t)
      else if consumption > max_threshold then
        -- high consumption: record but flag as anomaly
        (mset totals₀ tank_id ((mget totals₀ tank_id).getD 0 + converted),
         { t with consumption_anomaly := some true })
      else
        -- Normal consumption
        (mset totals₀ tank_id ((mget totals₀ tank_id).getD 0 + converted), t)
    else
      (totals, t)

/-- Python `round(x, 4)` (banker's rounding differs from `round` only at exact
ties, which no claim exercises). -/
def roundTo4 (q : ℚ) : ℚ := (round (q * 10000) : ℤ) / 10000

/-- `_process_tank_consumption(tank)`: the full per-tank per-cycle step on the
coordinator state.  The trailing days-since-delivery block of the source only
writes `tank["days_since_delivery"]` from the wall clock (`datetime.now`) and
touches no other field or state; it is outside every claim and not modelled. -/
def processTankConsumption (P : VendorParams) (cfg : Config)
    (update_interval_seconds : ℚ) (s : CoordState) (t : Tank) : CoordState × Tank :=
  match t.tank_id with
  | none => (s, t)  -- `if not tank_id: return`
  | some tank_id =>
    if tank_id = "" then (s, t)  -- empty string is falsy too
    else
      -- Validate tank data first
      match validateTankData P s.data_quality_flags t with
      | (ok, flags', t₁) =>
        let s₁ : CoordState := { s with data_quality_flags := flags' }
        if ¬ ok then
          (s₁, { t₁ with
                  consumption_total := some (totalOf s₁.consumption_totals tank_id)
                  consumption_rate := some 0
                  data_quality := some ((mget flags' tank_id).getD P.unknownFlag) })
        else
          -- Convert to float, handle "unknown" values
          match pyFloat ((P.getVol t₁).getD (.str "0")),
                pyFloat (t₁.tank_size.getD (.num 500)) with
          | some current, some tank_size =>
            -- Calculate dynamic thresholds
            let update_interval_hours := pymax 0.001 (update_interval_seconds / SECONDS_PER_HOUR)
            let thr := calculateDynamicThresholds cfg tank_size update_interval_hours
            -- Calculate consumption if we have a previous reading
            let blk := consumptionBlock P thr.1 thr.2 tank_id current
              s₁.previous_readings s₁.consumption_totals t₁
            let totals' := blk.1
            let t₂ := blk.2
            -- Store actual previous reading BEFORE updating for rate calculation
            let actual_previous := mget s₁.previous_readings tank_id
            -- Update previous reading
            let prevs' := mset s₁.previous_readings tank_id current
            -- Add consumption total to tank data for Energy Dashboard
            let t₃ := { t₂ with consumption_total := some (totalOf totals' tank_id) }
            -- Instantaneous consumption rate from the last interval
            let t₄ :=
              match actual_previous with
              | some ap =>
                if update_interval_hours > 0 then
                  if ap - current > 0 then
                    let rate := roundTo4 ((ap - current) * P.factor / update_interval_hours)
                    { t₃ with consumption_rate := some rate }
                  else { t₃ with consumption_rate := some 0 }
                else { t₃ with consumption_rate := some 0 }
              | none => { t₃ with consumption_rate := some 0 }
            -- Add data quality indicator
            let t₅ := { t₄ with data_quality := some ((mget flags' tank_id).getD P.unknownFlag) }
            ({ previous_readings := prevs'
               consumption_totals := totals'
               data_quality_flags := flags' }, t₅)
          | _, _ =>
            (s₁, { t₁ with
                    consumption_total := some (totalOf s₁.consumption_totals tank_id)
                    consumption_rate := some 0
                    data_quality := some "invalid_data" })

/- ## Persisted consumption store
`async_load_consumption_data` / `async_save_consumption_data`.  The storage
backend (`Store`) is modelled as `Option StoredBlob` (`none` = no document on
disk).  `STORAGE_VERSION` is 2 for Vendor A and 1 for Vendor B; the code is
otherwise identical, so it is parameterized by the version constant. -/

/-- The JSON document held by the consumption store. -/
structure StoredBlob where
  version : Option ℕ
  consumption_totals : List (String × ℚ)
  previous_readings : List (String × ℚ)
  last_updated : Option String
deriving DecidableEq, Repr

/-- `async_save_consumption_data`: writes the full ledger tagged with the
current `STORAGE_VERSION`. -/
def saveConsumptionData (STORAGE_VERSION : ℕ) (totals prevs : List (String × ℚ))
    (now : String) : StoredBlob :=
  { version := some STORAGE_VERSION
    consumption_totals := totals
    previous_readings := prevs
    last_updated := some now }

/-- `async_load_consumption_data`: result is the coordinator's two maps plus
the store contents after the load (a missing `version` tag defaults to 1,
triggering an in-place upgrade and re-save). -/
def loadConsumptionData (STORAGE_VERSION : ℕ) (store : Option StoredBlob)
    (totals₀ prevs₀ : List (String × ℚ)) :
    (List (String × ℚ)) × (List (String × ℚ)) × Option StoredBlob :=
  match store with
  | none => (totals₀, prevs₀, none)  -- `if stored_data:` falsy → nothing loaded
  | some stored_data =>
    let stored_version := stored_data.version.getD 1
    let upgraded :=
      if stored_version = 1 then { stored_data with version := some STORAGE_VERSION }
      else stored_data
    (upgraded.consumption_totals, upgraded.previous_readings, some upgraded)

/- ## Vendor B `_parse_tank_json` (superior_propane/api.py) -/

/-- Hyphen-joining of alphanumeric runs: a separator char starts a single
hyphen before the next run; trailing separators emit nothing. -/
def slugChars : List Char → List Char
  | [] => []
  | c :: rest =>
    let tail := slugChars rest
    if c = ' ' then
      match tail with
      | [] => []
      | '-' :: _ => tail
      | _ => '-' :: tail
    else c :: tail

/-- Model of the vendored third-party `slugify` utility (used unmodified and
excluded from the spec's scope): lowercases, keeps alphanumeric runs, joins
them with single hyphens. -/
def slugify (s : String) : String :=
  let cleaned := s.toList.map (fun c =>
    let lc := c.toLower
    if lc.isAlphanum then lc else ' ')
  String.mk ((slugChars cleaned).dropWhile (· = '-'))

/-- Digits-only string to a natural number. -/
def parseNatDigits (s : String) : Option ℕ :=
  if s ≠ "" ∧ s.toList.all Char.isDigit then
    some (s.toList.foldl (fun a c => a * 10 + (c.toNat - 48)) 0)
  else none

def isLeapYear (y : ℕ) : Bool := (y % 4 = 0 ∧ y % 100 ≠ 0) ∨ y % 400 = 0

def daysInMonth (y m : ℕ) : ℕ :=
  if m = 2 then (if isLeapYear y then 29 else 28)
  else if m = 4 ∨ m = 6 ∨ m = 9 ∨ m = 11 then 30
  else 31

/-- Splitting a character list on a separator character. -/
def splitOnChar (sep : Char) : List Char → List (List Char)
  | [] => [[]]
  | c :: rest =>
    let r := splitOnChar sep rest
    if c = sep then [] :: r
    else
      match r with
      | [] => [[c]]
      | w :: ws => (c :: w) :: ws

/-- Model of `datetime.strptime(s, "%Y-%m-%d")`: three dash-separated numeric
components with calendar validation; `none` where Python raises `ValueError`. -/
def parseYmd (s : String) : Option (ℕ × ℕ × ℕ) :=
  match (splitOnChar '-' s.toList).map (fun w => parseNatDigits (String.mk w)) with
  | [some y, some m, some d] =>
    if 1 ≤ m ∧ m ≤ 12 ∧ 1 ≤ d ∧ d ≤ daysInMonth y m then some (y, m, d) else none
  | _ => none

/-- Day number of a civil date (days since 1970-01-01; the standard
days-from-civil computation), used for Python date subtraction `.days`. -/
def daysFromCivil (ymd : ℕ × ℕ × ℕ) : ℤ :=
  let y : ℤ := ymd.1
  let m : ℤ := ymd.2.1
  let d : ℤ := ymd.2.2
  let y' := if m ≤ 2 then y - 1 else y
  let era := y' / 400
  let yoe := y' - era * 400
  let mp := (m + 9) % 12
  let doy := (153 * mp + 2) / 5 + d - 1
  let doe := yoe * 365 + yoe / 4 - yoe / 100 + doy
  era * 146097 + doe - 719468

/-- `_parse_tank_json(tank, tank_number)`: maps the vendor's `adds_*` JSON keys
into the normalized record.  Note the reported volume (`adds_fill`) lands under
the `current_gallons` key; `current_volume` is never set by this parser.
`none` models the `except (AttributeError, ValueError, TypeError): return None`
outcome (a non-string where `.lower()`/`.split()` is called). -/
def parseTankJson (tank : List (String × PVal)) (tank_number : ℕ) : Option Tank :=
  match asStr ((mget tank "adds_location").getD (.str "unknown")) with
  | none => none
  | some address =>
    -- `slugify(address.lower().replace(" ", "_"))`
    let lowered := String.mk (address.toList.map Char.toLower)
    let underscored := String.mk (lowered.toList.map (fun c => if c = ' ' then '_' else c))
    let tank_id := slugify underscored
    match asStr ((mget tank "adds_last_reading").getD (.str "unknown")),
          asStr ((mget tank "adds_last_fill").getD (.str "unknown")) with
    | some lastReadingRaw, some lastFillRaw =>
      -- `.split(" ")[0]`
      let reading_date := String.mk (lastReadingRaw.toList.takeWhile (· ≠ ' '))
      let last_delivery := String.mk (lastFillRaw.toList.takeWhile (· ≠ ' '))
      -- Calculate days since delivery
      let days_since_delivery :=
        match parseYmd last_delivery, parseYmd reading_date with
        | some dDate, some rDate =>
          let diff := daysFromCivil rDate - daysFromCivil dDate
          if diff ≥ 0 then toString diff else "unknown"
        | _, _ => "unknown"
      some { tank_id := some tank_id
             tank_number := some tank_number
             address := some address
             tank_size := some ((mget tank "adds_tank_size").getD (.str "unknown"))
             tank_type := some ((mget tank "adds_tank_description").getD (.str "unknown"))
             level := some ((mget tank "adds_fill_percentage").getD (.str "unknown"))
             current_gallons := some ((mget tank "adds_fill").getD (.str "unknown"))
             reading_date := some reading_date
             last_delivery := some last_delivery
             total_consumption := some ((mget tank "adds_tank_usage").getD (.str "unknown"))
             days_since_delivery := some days_since_delivery }
    | _, _ => none

/- ## Vendor B paginated tank fetch `_get_tanks_from_api` (superior_propane/api.py) -/

/-- One page's decoded response envelope: the `status` flag, the optional
`finished` flag (`response_json.get("finished", True)`), and the
double-decoded `data` array of raw tank dicts. -/
structure TankApiResponse where
  status : Bool
  finished : Option Bool
  data : List (List (String × PVal))

/-- Python `enumerate(tank_list, offset + 1)` feeding `_parse_tank_json`,
keeping the records that parsed. -/
def parsePage (data : List (List (String × PVal))) (start : ℕ) : List Tank :=
  (List.enumFrom start data).filterMap (fun p => parseTankJson p.2 p.1)

/-- The `while not finished:` pagination loop of `_get_tanks_from_api`, with
the server modelled as a function from the request `offset` to its response
and an explicit fuel bound: `none` means the loop is still running after
`fuel` pages, `some (.error ())` models the `status`-false raise, and
`some (.ok tanks)` a normal exit.  `limit = 10`. -/
def getTanksFromApiLoop (server : ℕ → TankApiResponse) :
    ℕ → ℕ → List Tank → Option (Except Unit (List Tank))
  | 0, _, _ => none
  | fuel + 1, offset, acc =>
    let r := server offset
    if ¬ r.status then some (.error ())  -- "Tank API returned error" raise
    else
      let acc' := acc ++ parsePage r.data (offset + 1)
      if r.finished.getD true then some (.ok acc')
      else getTanksFromApiLoop server fuel (offset + 10) acc'

/-- The paginated fetch terminates (normally or by raising) against a given
server behaviour. -/
def FetchTerminates (server : ℕ → TankApiResponse) : Prop :=
  ∃ fuel, getTanksFromApiLoop server fuel 0 [] ≠ none

/- ## Vendor B orders totals and account data -/

/-- One order row as the portal reports it: product name, quantity (litres)
and cost. -/
structure OrderRow where
  product : String
  litres : ℚ
  cost : ℚ
deriving DecidableEq, Repr

/-- Substring search over character lists. -/
def containsSub (pat : List Char) : List Char → Bool
  | [] => pat.isPrefixOf []
  | c :: rest => pat.isPrefixOf (c :: rest) || containsSub pat rest

/-- Case-insensitive test for "PROPANE" in the product name. -/
def containsPropane (product : String) : Bool :=
  containsSub "PROPANE".toList (product.toList.map Char.toUpper)

/-- Modelled from the spec: the portal client's orders-totals operation
(`async_get_orders_totals`) is called by `_async_update_data`
(superior_propane/coordinator.py line 372) but no such method exists in
src/custom_components/superior_propane/api.py.  Spec §4.2: "filter to rows
whose product-name column contains PROPANE (case-insensitive), and accumulate
the quantity column ... and the cost column ... into running totals". Returns
`(total_litres, total_cost)`. -/
def asyncGetOrdersTotals (rows : List OrderRow) : ℚ × ℚ :=
  rows.foldl
    (fun acc row =>
      if containsPropane row.product then (acc.1 + row.litres, acc.2 + row.cost) else acc)
    (0, 0)

/-- The coordinator's account-wide aggregate (`self.account_data`). -/
structure AccountData where
  total_litres : ℚ
  total_cost : ℚ
  average_price : ℚ
deriving DecidableEq, Repr

/-- The orders block of `_async_update_data` (superior_propane/coordinator.py
lines 371-380): `average_price = total_cost / total_litres if total_litres > 0
else 0.0`, recomputed from the fetched totals on every refresh. -/
def computeAccountData (orders_totals : ℚ × ℚ) : AccountData :=
  let total_litres := orders_totals.1
  let total_cost := orders_totals.2
  { total_litres := total_litres
    total_cost := total_cost
    average_price := if total_litres > 0 then total_cost / total_litres else 0 }

/- ## Configuration flow (superior_plus_propane/config_flow.py) -/

/-- The client error kinds (AuthenticationError and CommunicationError both
subclass the general ApiClientError). -/
inductive ApiError where
  | auth
  | comm
  | general
deriving DecidableEq, Repr

/-- `async_test_connection` (api.py lines 379-387): runs the full tank fetch
and reports boolean success; `except AuthenticationError: return False` and
`except ApiClientError: return False` swallow every client error kind. -/
def asyncTestConnection (fetch : Except ApiError (List Tank)) : Bool :=
  match fetch with
  | .ok tanks => decide (tanks.length > 0)
  | .error _ => false

/-- `_test_credentials` (config_flow.py lines 127-134): awaits
`async_test_connection` and discards its boolean result; it can only raise
what `async_test_connection` raises. -/
def testCredentials (fetch : Except ApiError (List Tank)) : Except ApiError Unit :=
  Except.ok (let _ := asyncTestConnection fetch; ())

/-- Outcome of one setup-form submission. -/
inductive FlowResult where
  | form (error : String)
  | createEntry
deriving DecidableEq, Repr

/-- The submission branch of `async_step_user` (config_flow.py lines 42-63),
as a function of the client's underlying tank-fetch outcome: the three except
clauses map error kinds to form error codes, and the else branch creates the
entry. -/
def asyncStepUser (fetch : Except ApiError (List Tank)) : FlowResult :=
  match testCredentials fetch with
  | .error .auth => .form "auth"
  | .error .comm => .form "connection"
  | .error .general => .form "unknown"
  | .ok _ => .createEntry

/- ## Entity lookup and sensors -/

/-- Vendor A `_get_tank_data` (superior_plus_propane/entity.py): linear scan of
the coordinator's list snapshot (`if not self.coordinator.data: return None`
covers both a missing and an empty snapshot). -/
def getTankDataA (data : Option (List Tank)) (tank_id : String) : Option Tank :=
  match data with
  | none => none
  | some tanks =>
    if tanks.isEmpty then none
    else tanks.find? (fun t => t.tank_id = some tank_id)

/-- A Vendor B coordinator snapshot: `_async_update_data` returns the tank
record list itself (`.list`), while `_get_tank_data` expects a mapping with a
"tanks" sub-collection (`.dict`). -/
inductive SnapshotB where
  | list (tanks : List Tank)
  | dict (tanks : List Tank)
deriving DecidableEq, Repr

/-- Python falsiness of the snapshot (`if not self.coordinator.data`): an
empty list is falsy; a dict holding a "tanks" key is non-empty, hence truthy. -/
def snapshotFalsy : SnapshotB → Bool
  | .list tanks => tanks.isEmpty
  | .dict _ => false

/-- Python `"tanks" in self.coordinator.data`: on a dict it is a key test; on a
list it compares the string against each element with `==`, and a tank record
(a dict) never equals a str, so every comparison is False. -/
def snapshotHasTanksKey : SnapshotB → Bool
  | .list tanks => tanks.any (fun _ => false)
  | .dict _ => true

/-- Vendor B `_get_tank_data` (superior_propane/entity.py lines 35-43): guard,
then `self.coordinator.data.get("tanks", [])` and a dict built keyed by
`tank_id` (later duplicates overwrite earlier ones, hence the reversed scan). -/
def getTankDataB (data : Option SnapshotB) (tank_id : String) : Option Tank :=
  match data with
  | none => none
  | some snap =>
    if snapshotFalsy snap || ¬ snapshotHasTanksKey snap then none
    else
      let tanks := match snap with | .list _ => [] | .dict tanks => tanks
      tanks.reverse.find? (fun t => t.tank_id = some tank_id)

/-- The snapshot `_async_update_data` (superior_propane/coordinator.py) hands
to the entities: the per-tank record list itself. -/
def coordinatorSnapshotB (tanks : List Tank) : SnapshotB := .list tanks

/-- The shared body of every "coerce a scraped string field to float" sensor
`native_value`: sentinel check first, then `float(...)` with coercion failures
mapped to no-value. -/
def coerceSensorValue (field : Option PVal) : Option ℚ :=
  let field_str := field.getD (.str "unknown")
  if field_str = .str "unknown" then none
  else pyFloat field_str

/-- `SuperiorPlusPropaneLevelSensor.native_value` (sensor.py lines 95-109). -/
def levelNativeValueA (data : Option (List Tank)) (tank_id : String) : Option ℚ :=
  match getTankDataA data tank_id with
  | none => none
  | some t => coerceSensorValue t.level

/-- `SuperiorPlusPropaneGallonsSensor.native_value`. -/
def gallonsNativeValueA (data : Option (List Tank)) (tank_id : String) : Option ℚ :=
  match getTankDataA data tank_id with
  | none => none
  | some t => coerceSensorValue t.current_gallons

/-- `SuperiorPlusPropaneCapacitySensor.native_value`. -/
def capacityNativeValueA (data : Option (List Tank)) (tank_id : String) : Option ℚ :=
  match getTankDataA data tank_id with
  | none => none
  | some t => coerceSensorValue t.tank_size

/-- `SuperiorPropaneLevelSensor.native_value` (superior_propane/sensor.py lines
94-108): same body as Vendor A's, but through the Vendor B tank lookup. -/
def levelNativeValueB (data : Option SnapshotB) (tank_id : String) : Option ℚ :=
  match getTankDataB data tank_id with
  | none => none
  | some t => coerceSensorValue t.level

/-- `SuperiorPropaneConsumptionTotalSensor.native_value`: no-value when the
tank lookup fails, else `tank_data.get("consumption_total", 0.0)`. -/
def consumptionTotalNativeValueB (data : Option SnapshotB) (tank_id : String) : Option ℚ :=
  match getTankDataB data tank_id with
  | none => none
  | some t => some (t.consumption_total.getD 0)

/- ## Helper lemmas on the dict model -/

theorem mget_mset_self {α : Type} (m : List (String × α)) (k : String) (v : α) :
    mget (mset m k v) k = some v := by
  induction m with
  | nil => simp [mget, mset]
  | cons p rest ih =>
    by_cases h : p.1 = k
    · simp [mget, mset, h]
    · simp [mget, mset, h, ih]

theorem mget_mset_ne {α : Type} (m : List (String × α)) (k k' : String) (v : α)
    (h : k' ≠ k) : mget (mset m k v) k' = mget m k' := by
  induction m with
  | nil => simp [mget, mset, Ne.symm h]
  | cons p rest ih =>
    by_cases hp : p.1 = k
    · simp [mget, mset, hp, Ne.symm h]
    · simp [mget, mset, hp, ih]

theorem totalOf_mset_self (m : List (String × ℚ)) (k : String) (v : ℚ) :
    totalOf (mset m k v) k = v := by
  simp [totalOf, mget_mset_self]

theorem totalOf_mset_ne (m : List (String × ℚ)) (k k' : String) (v : ℚ) (h : k' ≠ k) :
    totalOf (mset m k v) k' = totalOf m k' := by
  simp [totalOf, mget_mset_ne m k k' v h]

/-- The `setdefault`-style seeding (`if tank_id not in totals: totals[tid] = 0`)
never changes any observed total. -/
theorem totalOf_seed (totals : List (String × ℚ)) (tid id : String) :
    totalOf (if mget totals tid = none then mset totals tid 0 else totals) id
      = totalOf totals id := by
  by_cases h : mget totals tid = none
  · by_cases hid : id = tid
    · subst hid; simp [h, totalOf, mget_mset_self]
    · simp [h, totalOf_mset_ne totals tid id 0 hid]
  · simp [h]

/-- In the add branches, the observed total of the processed tank grows by
exactly the converted delta. -/
theorem totalOf_add (totals : List (String × ℚ)) (tid : String) (c : ℚ) :
    totalOf
      (mset (if mget totals tid = none then mset totals tid 0 else totals) tid
        ((mget (if mget totals tid = none then mset totals tid 0 else totals) tid).getD 0 + c))
      tid = totalOf totals tid + c := by
  have h := totalOf_seed totals tid tid
  simp only [totalOf] at h
  rw [totalOf_mset_self, h]
  simp [totalOf]

theorem totalOf_add_ne (totals : List (String × ℚ)) (tid id : String) (c : ℚ) (h : id ≠ tid) :
    totalOf
      (mset (if mget totals tid = none then mset totals tid 0 else totals) tid
        ((mget (if mget totals tid = none then mset totals tid 0 else totals) tid).getD 0 + c))
      id = totalOf totals id := by
  rw [totalOf_mset_ne _ _ _ _ h, totalOf_seed]

/- ## Behaviour of the consumption block -/

theorem consumptionBlock_no_previous (P : VendorParams) (mn mx : ℚ) (tid : String)
    (cur : ℚ) (prevs totals : List (String × ℚ)) (t : Tank)
    (h : mget prevs tid = none) :
    consumptionBlock P mn mx tid cur prevs totals t = (totals, t) := by
  simp [consumptionBlock, h]

theorem consumptionBlock_refill (P : VendorParams) (mn mx : ℚ) (tid : String)
    (prev cur : ℚ) (prevs totals : List (String × ℚ)) (t : Tank)
    (h : mget prevs tid = some prev) (hneg : prev - cur < 0) :
    consumptionBlock P mn mx tid cur prevs totals t
      = (totals, { t with refill_detected := some true }) := by
  simp [consumptionBlock, h, hneg]

theorem consumptionBlock_zero (P : VendorParams) (mn mx : ℚ) (tid : String)
    (prev cur : ℚ) (prevs totals : List (String × ℚ)) (t : Tank)
    (h : mget prevs tid = some prev) (hz : prev - cur = 0) :
    consumptionBlock P mn mx tid cur prevs totals t = (totals, t) := by
  simp [consumptionBlock, h, hz]

theorem consumptionBlock_add (P : VendorParams) (mn mx : ℚ) (tid : String)
    (prev cur : ℚ) (prevs totals : List (String × ℚ)) (t : Tank)
    (h : mget prevs tid = some prev) (hpos : 0 < prev - cur) :
    totalOf (consumptionBlock P mn mx tid cur prevs totals t).1 tid
      = totalOf totals tid + (prev - cur) * P.factor := by
  have hnneg : ¬ (prev - cur < 0) := not_lt.mpr (le_of_lt hpos)
  simp only [consumptionBlock, h]
  rw [if_neg hnneg, if_pos hpos]
  split
  · exact totalOf_add totals tid _
  · split
    · exact totalOf_add totals tid _
    · exact totalOf_add totals tid _

theorem consumptionBlock_anomaly (P : VendorParams) (mn mx : ℚ) (tid : String)
    (prev cur : ℚ) (prevs totals : List (String × ℚ)) (t : Tank)
    (h : mget prevs tid = some prev) (hpos : 0 < prev - cur)
    (hlow : ¬ (prev - cur < mn)) (hhigh : prev - cur > mx) :
    (consumptionBlock P mn mx tid cur prevs totals t).2.consumption_anomaly = some true := by
  have hnneg : ¬ (prev - cur < 0) := not_lt.mpr (le_of_lt hpos)
  simp [consumptionBlock, h, hnneg, hpos, hlow, hhigh]

/-- The consumption block never decreases any observed cumulative total
(given a positive conversion factor). -/
theorem consumptionBlock_mono (P : VendorParams) (hP : 0 < P.factor) (mn mx : ℚ)
    (tid : String) (cur : ℚ) (prevs totals : List (String × ℚ)) (t : Tank) (id : String) :
    totalOf totals id ≤ totalOf (consumptionBlock P mn mx tid cur prevs totals t).1 id := by
  rcases hprev : mget prevs tid with _ | prev
  · rw [consumptionBlock_no_previous P mn mx tid cur prevs totals t hprev]
  · simp only [consumptionBlock, hprev]
    by_cases hneg : prev - cur < 0
    · simp [hneg]
    · by_cases hpos : prev - cur > 0
      · have hc : 0 ≤ (prev - cur) * P.factor :=
          le_of_lt (mul_pos hpos hP)
        by_cases hid : id = tid
        · subst hid
          simp only [hneg, if_false, hpos, if_true]
          split
          · rw [totalOf_add]; linarith
          · split
            · rw [totalOf_add]; linarith
            · rw [totalOf_add]; linarith
        · simp only [hneg, if_false, hpos, if_true]
          split
          · rw [totalOf_add_ne _ _ _ _ hid]
          · split
            · rw [totalOf_add_ne _ _ _ _ hid]
            · rw [totalOf_add_ne _ _ _ _ hid]
      · simp [hneg, hpos]

/- ## Unfolding lemmas for the per-tank processing step -/

/-- A failed validation never touches the tank record (every `return False`
path leaves it as received). -/
theorem validateTankData_fail_tank (P : VendorParams) (flags : List (String × String))
    (t : Tank) (h : (validateTankData P flags t).1 = false) :
    (validateTankData P flags t).2.2 = t := by
  simp only [validateTankData] at h ⊢
  rcases h1 : pyFloat (t.tank_size.getD (PVal.num 0)) with _ | ts
  · simp only [h1]
  · simp only [h1] at h ⊢
    by_cases h2 : ¬ (TANK_SIZE_MIN ≤ ts ∧ ts ≤ TANK_SIZE_MAX)
    · rw [if_pos h2]
    · rw [if_neg h2] at h ⊢
      rcases h3 : pyFloat (t.level.getD (PVal.num (-1))) with _ | lv
      · simp only [h3]
      · simp only [h3] at h ⊢
        by_cases h4 : ¬ (0 ≤ lv ∧ lv ≤ 100)
        · rw [if_pos h4]
        · rw [if_neg h4] at h ⊢
          rcases h5 : pyFloat ((P.getVol t).getD (PVal.num 0)) with _ | cur
          · simp only [h5]
          · simp only [h5] at h
            repeat' split at h
            all_goals simp at h

/-- The validation-failure branch of `_process_tank_consumption`: the
persisted maps are untouched; only the frozen total, a zero rate and the
quality flag are written onto the record. -/
theorem processTank_valid_fail (P : VendorParams) (cfg : Config) (secs : ℚ)
    (s : CoordState) (t : Tank) (tid : String) (flags' : List (String × String)) (t₁ : Tank)
    (htid : t.tank_id = some tid) (hne : tid ≠ "")
    (hval : validateTankData P s.data_quality_flags t = (false, flags', t₁)) :
    processTankConsumption P cfg secs s t =
      ({ s with data_quality_flags := flags' },
       { t₁ with
          consumption_total := some (totalOf s.consumption_totals tid)
          consumption_rate := some 0
          data_quality := some ((mget flags' tid).getD P.unknownFlag) }) := by
  simp only [processTankConsumption, htid, hval]
  simp [hne]

/-- The unparseable-volume branch of `_process_tank_consumption`: validation
passed but `float(...)` failed; again the persisted maps are untouched. -/
theorem processTank_invalid_data (P : VendorParams) (cfg : Config) (secs : ℚ)
    (s : CoordState) (t : Tank) (tid : String) (flags' : List (String × String)) (t₁ : Tank)
    (htid : t.tank_id = some tid) (hne : tid ≠ "")
    (hval : validateTankData P s.data_quality_flags t = (true, flags', t₁))
    (hnone : pyFloat ((P.getVol t₁).getD (.str "0")) = none
      ∨ pyFloat (t₁.tank_size.getD (.num 500)) = none) :
    processTankConsumption P cfg secs s t =
      ({ s with data_quality_flags := flags' },
       { t₁ with
          consumption_total := some (totalOf s.consumption_totals tid)
          consumption_rate := some 0
          data_quality := some "invalid_data" }) := by
  simp only [processTankConsumption, htid, hval]
  rcases hnone with ha | hb
  · simp [hne, ha]
  · rcases hc : pyFloat ((P.getVol t₁).getD (.str "0")) with _ | c <;> simp [hne, hb, hc]

/-- The main path of `_process_tank_consumption` (validation passed, both
floats parsed): the resulting coordinator state. -/
theorem processTank_main_state (P : VendorParams) (cfg : Config) (secs : ℚ)
    (s : CoordState) (t : Tank) (tid : String) (flags' : List (String × String)) (t₁ : Tank)
    (cur tsz : ℚ)
    (htid : t.tank_id = some tid) (hne : tid ≠ "")
    (hval : validateTankData P s.data_quality_flags t = (true, flags', t₁))
    (hcur : pyFloat ((P.getVol t₁).getD (.str "0")) = some cur)
    (hts : pyFloat (t₁.tank_size.getD (.num 500)) = some tsz) :
    (processTankConsumption P cfg secs s t).1 =
      (let hrs := pymax 0.001 (secs / SECONDS_PER_HOUR)
       let thr := calculateDynamicThresholds cfg tsz hrs
       let blk := consumptionBlock P thr.1 thr.2 tid cur
         s.previous_readings s.consumption_totals t₁
       { previous_readings := mset s.previous_readings tid cur
         consumption_totals := blk.1
         data_quality_flags := flags' }) := by
  simp only [processTankConsumption, htid, hval, hcur, hts]
  simp [hne]

/-- On the main path, the record's `refill_detected` flag is exactly what the
consumption block produced (the later writes touch other fields only). -/
theorem processTank_main_refill (P : VendorParams) (cfg : Config) (secs : ℚ)
    (s : CoordState) (t : Tank) (tid : String) (flags' : List (String × String)) (t₁ : Tank)
    (cur tsz : ℚ)
    (htid : t.tank_id = some tid) (hne : tid ≠ "")
    (hval : validateTankData P s.data_quality_flags t = (true, flags', t₁))
    (hcur : pyFloat ((P.getVol t₁).getD (.str "0")) = some cur)
    (hts : pyFloat (t₁.tank_size.getD (.num 500)) = some tsz) :
    (processTankConsumption P cfg secs s t).2.refill_detected =
      (let hrs := pymax 0.001 (secs / SECONDS_PER_HOUR)
       let thr := calculateDynamicThresholds cfg tsz hrs
       (consumptionBlock P thr.1 thr.2 tid cur
         s.previous_readings s.consumption_totals t₁).2.refill_detected) := by
  simp only [processTankConsumption, htid, hval, hcur, hts]
  rcases hap : mget s.previous_readings tid with _ | ap
  · simp [hne, hap]
  · simp only [hne, hap]
    simp
    have h3 : (0 : ℚ) < pymax 1e-3 (secs / SECONDS_PER_HOUR) := pymax_pos _ (by norm_num)
    by_cases hc : cur < ap <;> simp [hc, h3]

/-- On the main path, the record's `consumption_anomaly` flag is exactly what
the consumption block produced. -/
theorem processTank_main_anomaly (P : VendorParams) (cfg : Config) (secs : ℚ)
    (s : CoordState) (t : Tank) (tid : String) (flags' : List (String × String)) (t₁ : Tank)
    (cur tsz : ℚ)
    (htid : t.tank_id = some tid) (hne : tid ≠ "")
    (hval : validateTankData P s.data_quality_flags t = (true, flags', t₁))
    (hcur : pyFloat ((P.getVol t₁).getD (.str "0")) = some cur)
    (hts : pyFloat (t₁.tank_size.getD (.num 500)) = some tsz) :
    (processTankConsumption P cfg secs s t).2.consumption_anomaly =
      (let hrs := pymax 0.001 (secs / SECONDS_PER_HOUR)
       let thr := calculateDynamicThresholds cfg tsz hrs
       (consumptionBlock P thr.1 thr.2 tid cur
         s.previous_readings s.consumption_totals t₁).2.consumption_anomaly) := by
  simp only [processTankConsumption, htid, hval, hcur, hts]
  rcases hap : mget s.previous_readings tid with _ | ap
  · simp [hne, hap]
  · simp only [hne, hap]
    simp
    have h3 : (0 : ℚ) < pymax 1e-3 (secs / SECONDS_PER_HOUR) := pymax_pos _ (by norm_num)
    by_cases hc : cur < ap <;> simp [hc, h3]

/- ## Claim theorems -/

/-- C3: with adaptive thresholds enabled and no overrides, the dynamic
thresholds are low = max(0.01, size * 0.0001 * hours) and high =
min(50.0, size * 0.05 * hours) — giving (0.05, 25.0) for a 500-unit tank at a
1-hour interval and (0.01, 1.0) for a 20-unit tank — and the resolution
precedence holds: both overrides are used verbatim; one override with adaptive
on pairs with the dynamic value; one override with adaptive off pairs with the
static default (0.01 / 25.0); adaptive off with no overrides gives the static
defaults. -/
theorem spec_C3 :
    (∀ sz hrs : ℚ, calculateDynamicThresholds ⟨true, none, none⟩ sz hrs
        = (pymax ABSOLUTE_MIN_CONSUMPTION (sz * MIN_CONSUMPTION_PERCENTAGE * hrs),
           pymin ABSOLUTE_MAX_CONSUMPTION (sz * MAX_CONSUMPTION_PERCENTAGE * hrs))) ∧
    calculateDynamicThresholds ⟨true, none, none⟩ 500 1 = (0.05, 25.0) ∧
    calculateDynamicThresholds ⟨true, none, none⟩ 20 1 = (0.01, 1.0) ∧
    (∀ (b : Bool) (mn mx sz hrs : ℚ),
        calculateDynamicThresholds ⟨b, some mn, some mx⟩ sz hrs = (mn, mx)) ∧
    (∀ mn sz hrs : ℚ, calculateDynamicThresholds ⟨true, some mn, none⟩ sz hrs
        = (mn, pymin ABSOLUTE_MAX_CONSUMPTION (sz * MAX_CONSUMPTION_PERCENTAGE * hrs))) ∧
    (∀ mx sz hrs : ℚ, calculateDynamicThresholds ⟨true, none, some mx⟩ sz hrs
        = (pymax ABSOLUTE_MIN_CONSUMPTION (sz * MIN_CONSUMPTION_PERCENTAGE * hrs), mx)) ∧
    (∀ mn sz hrs : ℚ, calculateDynamicThresholds ⟨false, some mn, none⟩ sz hrs
        = (mn, DEFAULT_MAX_CONSUMPTION)) ∧
    (∀ mx sz hrs : ℚ, calculateDynamicThresholds ⟨false, none, some mx⟩ sz hrs
        = (DEFAULT_MIN_CONSUMPTION, mx)) ∧
    (∀ sz hrs : ℚ, calculateDynamicThresholds ⟨false, none, none⟩ sz hrs
        = (DEFAULT_MIN_CONSUMPTION, DEFAULT_MAX_CONSUMPTION)) := by
  refine ⟨fun sz hrs => rfl, ?_, ?_, fun b mn mx sz hrs => rfl,
    fun mn sz hrs => rfl, fun mx sz hrs => rfl, fun mn sz hrs => rfl,
    fun mx sz hrs => rfl, fun sz hrs => rfl⟩ <;>
  norm_num [calculateDynamicThresholds, pymax, pymin, ABSOLUTE_MIN_CONSUMPTION,
    ABSOLUTE_MAX_CONSUMPTION, MIN_CONSUMPTION_PERCENTAGE, MAX_CONSUMPTION_PERCENTAGE]

/-- C4: saving the consumption ledger and reloading it in a fresh coordinator
reproduces `consumption_totals` and `previous_readings` exactly, and a stored
blob lacking a version tag is upgraded in place to the current version and
re-saved with both maps' contents intact. -/
theorem spec_C4 :
    (∀ (V : ℕ) (totals prevs t₀ p₀ : List (String × ℚ)) (now : String),
        (loadConsumptionData V (some (saveConsumptionData V totals prevs now)) t₀ p₀).1
          = totals ∧
        (loadConsumptionData V (some (saveConsumptionData V totals prevs now)) t₀ p₀).2.1
          = prevs) ∧
    (∀ (V : ℕ) (d : StoredBlob) (t₀ p₀ : List (String × ℚ)), d.version = none →
        loadConsumptionData V (some d) t₀ p₀
          = (d.consumption_totals, d.previous_readings, some { d with version := some V })) := by
  constructor
  · intro V totals prevs t₀ p₀ now
    by_cases hV : V = 1 <;> simp [loadConsumptionData, saveConsumptionData, hV]
  · intro V d t₀ p₀ h
    simp [loadConsumptionData, h]

/-- Witness for C4 at the spec's concrete ledger. -/
theorem spec_C4_witness :
    (loadConsumptionData 2
        (some (saveConsumptionData 2 [("t1", 12.3)] [("t1", 88.0)] "2024-01-01T00:00:00")) [] []).1
      = [("t1", 12.3)] ∧
    (loadConsumptionData 2
        (some (saveConsumptionData 2 [("t1", 12.3)] [("t1", 88.0)] "2024-01-01T00:00:00")) [] []).2.1
      = [("t1", 88.0)] ∧
    loadConsumptionData 2 (some ⟨none, [("t1", 12.3)], [("t1", 88.0)], none⟩) [] []
      = ([("t1", 12.3)], [("t1", 88.0)], some ⟨some 2, [("t1", 12.3)], [("t1", 88.0)], none⟩) := by
  refine ⟨(spec_C4.1 2 [("t1", 12.3)] [("t1", 88.0)] [] [] "2024-01-01T00:00:00").1,
    (spec_C4.1 2 [("t1", 12.3)] [("t1", 88.0)] [] [] "2024-01-01T00:00:00").2,
    spec_C4.2 2 ⟨none, [("t1", 12.3)], [("t1", 88.0)], none⟩ [] [] rfl⟩

/-- C5: the Vendor B coordinator obtains account-wide order totals from the
client's orders-totals operation (spec-modelled, absent from src) and computes
average_price = total_cost / total_litres over propane-only rows; on rows
PROPANE (100, $50), PROPANE (200, $90), DIESEL (999, $1) this gives
total_litres = 300, total_cost = 140, average_price = 140 / 300. -/
theorem spec_C5 :
    asyncGetOrdersTotals
        [⟨"PROPANE", 100, 50⟩, ⟨"PROPANE", 200, 90⟩, ⟨"DIESEL", 999, 1⟩]
      = (300, 140) ∧
    computeAccountData
        (asyncGetOrdersTotals
          [⟨"PROPANE", 100, 50⟩, ⟨"PROPANE", 200, 90⟩, ⟨"DIESEL", 999, 1⟩])
      = ⟨300, 140, 140 / 300⟩ ∧
    (∀ tl tc : ℚ, 0 < tl → (computeAccountData (tl, tc)).average_price = tc / tl) := by
  have hp : containsPropane "PROPANE" = true := by decide
  have hd : containsPropane "DIESEL" = false := by decide
  have htot : asyncGetOrdersTotals
      [⟨"PROPANE", 100, 50⟩, ⟨"PROPANE", 200, 90⟩, ⟨"DIESEL", 999, 1⟩] = (300, 140) := by
    simp [asyncGetOrdersTotals, hp, hd]
    norm_num
  refine ⟨htot, ?_, fun tl tc h => ?_⟩
  · rw [htot]
    norm_num [computeAccountData, AccountData.mk.injEq]
  · simp [computeAccountData, h]

/-- Witness for C5's general average-price conjunct. -/
theorem spec_C5_witness : (computeAccountData (300, 140)).average_price = 140 / 300 :=
  spec_C5.2.2 300 140 (by norm_num)

/-- C6 (code evaluated at the failing input): a submission whose credential
test hits an authentication failure — or a communication failure — still
reaches entry creation, because `async_test_connection` swallows every client
error kind into a boolean that `_test_credentials` discards; the form is never
re-shown with the `auth`/`connection` error codes. -/
theorem spec_C6_eval :
    asyncStepUser (.error .auth) = .createEntry ∧
    asyncStepUser (.error .comm) = .createEntry ∧
    asyncStepUser (.error .general) = .createEntry ∧
    asyncTestConnection (.error .auth) = false := by
  decide

/-- C10: for every snapshot the Vendor B coordinator can produce (a list of
tank records), the entity base's tank lookup returns no-value, because it
requires a mapping with a "tanks" sub-collection; consequently the Vendor B
sensors' states are no-value on every reachable snapshot. -/
theorem spec_C10 (tanks : List Tank) (tank_id : String) :
    getTankDataB (some (coordinatorSnapshotB tanks)) tank_id = none ∧
    levelNativeValueB (some (coordinatorSnapshotB tanks)) tank_id = none ∧
    consumptionTotalNativeValueB (some (coordinatorSnapshotB tanks)) tank_id = none := by
  have hkey : snapshotHasTanksKey (coordinatorSnapshotB tanks) = false := by
    simp [snapshotHasTanksKey, coordinatorSnapshotB]
  have hget : getTankDataB (some (coordinatorSnapshotB tanks)) tank_id = none := by
    simp [getTankDataB, hkey]
  exact ⟨hget, by simp [levelNativeValueB, hget],
    by simp [consumptionTotalNativeValueB, hget]⟩

/-- C8: every numeric sensor treats the "unknown" sentinel as no-value
rather than attempting numeric coercion, and any coercion failure likewise
yields no-value (never an error, never zero) — shown for the Level, Current
Gallons and Capacity sensors of the tank the lookup resolves. -/
theorem spec_C8 (data : Option (List Tank)) (tank_id : String) (t : Tank)
    (hget : getTankDataA data tank_id = some t) :
    (t.level = some (.str "unknown") → levelNativeValueA data tank_id = none) ∧
    (pyFloat (t.level.getD (.str "unknown")) = none →
      levelNativeValueA data tank_id = none) ∧
    (t.current_gallons = some (.str "unknown") → gallonsNativeValueA data tank_id = none) ∧
    (pyFloat (t.current_gallons.getD (.str "unknown")) = none →
      gallonsNativeValueA data tank_id = none) ∧
    (t.tank_size = some (.str "unknown") → capacityNativeValueA data tank_id = none) ∧
    (pyFloat (t.tank_size.getD (.str "unknown")) = none →
      capacityNativeValueA data tank_id = none) := by
  have hcoerce : ∀ f : Option PVal, pyFloat (f.getD (.str "unknown")) = none →
      coerceSensorValue f = none := by
    intro f hf
    unfold coerceSensorValue
    by_cases hs : f.getD (PVal.str "unknown") = PVal.str "unknown" <;> simp [hs, hf]
  have hsentinel : ∀ f : Option PVal, f = some (.str "unknown") →
      coerceSensorValue f = none := by
    intro f hf
    simp [coerceSensorValue, hf]
  refine ⟨fun h => ?_, fun h => ?_, fun h => ?_, fun h => ?_, fun h => ?_, fun h => ?_⟩ <;>
    simp only [levelNativeValueA, gallonsNativeValueA, capacityNativeValueA, hget] <;>
    first
      | exact hsentinel _ h
      | exact hcoerce _ h

/-- Witness for C8: a snapshot holding one tank whose level is the "unknown"
sentinel makes the Level sensor report no-value. -/
theorem spec_C8_witness :
    levelNativeValueA
      (some [{ tank_id := some "t1", level := some (.str "unknown") }]) "t1" = none := by
  have h := spec_C8 (some [{ tank_id := some "t1", level := some (.str "unknown") }]) "t1"
    { tank_id := some "t1", level := some (.str "unknown") } (by simp [getTankDataA])
  exact h.1 rfl

/-- A raw Vendor B tank JSON element: size 500, level 50%, reported fill 260. -/
def rawTankJsonB : List (String × PVal) :=
  [("adds_location", .str "123 Main St"), ("adds_tank_size", .str "500"),
   ("adds_fill_percentage", .str "50"), ("adds_fill", .str "260")]

/-- The record `_parse_tank_json` produces for `rawTankJsonB`. -/
def tankB260 : Tank :=
  { tank_id := some "123-main-st", tank_number := some 1, address := some "123 Main St",
    tank_size := some (.str "500"), tank_type := some (.str "unknown"),
    level := some (.str "50"), current_gallons := some (.str "260"),
    reading_date := some "unknown", last_delivery := some "unknown",
    total_consumption := some (.str "unknown"), days_since_delivery := some "unknown" }

/-- A Vendor A record with the same numbers (size 500, level 50%, reported 260). -/
def tankA260 : Tank :=
  { tank_id := some "t1", tank_size := some (.str "500"), level := some (.str "50"),
    current_gallons := some (.str "260") }

/-- A Vendor A record with reported volume 310 (variance 0.12 > 0.10). -/
def tankA310 : Tank :=
  { tank_id := some "t1", tank_size := some (.str "500"), level := some (.str "50"),
    current_gallons := some (.str "310") }

/-- C2, evaluated at the failing input: the Vendor B client reports the
volume under the `current_gallons` key (`current_volume` is never set by
`_parse_tank_json`), while the Vendor B coordinator validates `current_volume`
— so the reported 260 is never cross-checked: instead of the claimed variance
0.02 ≤ 0.10 with flag good and no correction, the tank is flagged
`data_inconsistent` and a `current_volume` of 250 is fabricated with
`data_corrected` set.  Vendor A, whose validator reads the key its client
reports, behaves exactly as the claim states on the same numbers (260 good
and untouched; 310 inconsistent, overwritten with 250, `data_corrected`). -/
theorem spec_C2_eval :
    parseTankJson rawTankJsonB 1 = some tankB260 ∧
    tankB260.current_gallons = some (.str "260") ∧
    tankB260.current_volume = none ∧
    validateTankData vendorB [] tankB260
      = (true, [("123-main-st", "data_inconsistent")],
         { tankB260 with current_volume := some (.num 250), data_corrected := some true }) ∧
    validateTankData vendorA [] tankA260 = (true, [("t1", "good")], tankA260) ∧
    validateTankData vendorA [] tankA310
      = (true, [("t1", "data_inconsistent")],
         { tankA310 with current_gallons := some (.num 250), data_corrected := some true }) := by
  have h500 : pyFloat (PVal.str "500") = some 500 := by
    simp only [pyFloat]; rw [parsePyFloat_eval "500" false 500 0 0 (by decide)]; norm_num
  have h50 : pyFloat (PVal.str "50") = some 50 := by
    simp only [pyFloat]; rw [parsePyFloat_eval "50" false 50 0 0 (by decide)]; norm_num
  have h260 : pyFloat (PVal.str "260") = some 260 := by
    simp only [pyFloat]; rw [parsePyFloat_eval "260" false 260 0 0 (by decide)]; norm_num
  have h310 : pyFloat (PVal.str "310") = some 310 := by
    simp only [pyFloat]; rw [parsePyFloat_eval "310" false 310 0 0 (by decide)]; norm_num
  refine ⟨by decide, rfl, rfl, ?_, ?_, ?_⟩
  · simp only [validateTankData, vendorB, tankB260, Option.getD, h500, h50]
    norm_num [TANK_SIZE_MIN, TANK_SIZE_MAX, PERCENT_MULTIPLIER, DATA_VALIDATION_TOLERANCE,
      pyFloat, mset, Tank.mk.injEq]
  · simp only [validateTankData, vendorA, tankA260, Option.getD, h500, h50, h260]
    norm_num [TANK_SIZE_MIN, TANK_SIZE_MAX, PERCENT_MULTIPLIER, DATA_VALIDATION_TOLERANCE,
      mset, Tank.mk.injEq]
  · simp only [validateTankData, vendorA, tankA310, Option.getD, h500, h50, h310]
    norm_num [TANK_SIZE_MIN, TANK_SIZE_MAX, PERCENT_MULTIPLIER, DATA_VALIDATION_TOLERANCE,
      mset, Tank.mk.injEq]

/-- A server that always answers `finished = false` with an empty data array
keeps the pagination loop running forever. -/
theorem getTanksFromApiLoop_stuck :
    ∀ (fuel offset : ℕ) (acc : List Tank),
      getTanksFromApiLoop (fun _ => ⟨true, some false, []⟩) fuel offset acc = none := by
  intro fuel
  induction fuel with
  | zero => intro offset acc; rfl
  | succ n ih =>
    intro offset acc
    simp only [getTanksFromApiLoop, parsePage]
    simpa using ih (offset + 10) acc

/-- C7, counterexample: the claim says an empty data array (equivalently, a
batch smaller than the page size) is accepted as a termination signal, so a
server answering `finished = false` with an empty data array should still
cause the fetch to terminate — but the loop checks only the `finished` flag
and never terminates against that server. -/
theorem spec_C7_counterexample :
    ¬ FetchTerminates (fun _ => ⟨true, some false, []⟩) := by
  rintro ⟨fuel, hf⟩
  exact hf (getTanksFromApiLoop_stuck fuel 0 [])

/-- If the response at pagination offset `offset + 10 * k` carries the
completion signal the loop actually honours (a true — or absent, hence
defaulting to true — `finished` flag), the loop stops within `k + 1` pages
(either normally or by raising on a false `status` along the way). -/
theorem getTanksFromApiLoop_succ (server : ℕ → TankApiResponse) (fuel offset : ℕ)
    (acc : List Tank) :
    getTanksFromApiLoop server (fuel + 1) offset acc =
      (let r := server offset
       if ¬ r.status then some (.error ())
       else
         let acc' := acc ++ parsePage r.data (offset + 1)
         if r.finished.getD true then some (.ok acc')
         else getTanksFromApiLoop server fuel (offset + 10) acc') := rfl

theorem getTanksFromApiLoop_terminates :
    ∀ (k : ℕ) (server : ℕ → TankApiResponse) (offset : ℕ) (acc : List Tank),
      ((server (offset + 10 * k)).finished.getD true) = true →
      getTanksFromApiLoop server (k + 1) offset acc ≠ none := by
  intro k
  induction k with
  | zero =>
    intro server offset acc h
    simp only [Nat.mul_zero, Nat.add_zero] at h
    rw [getTanksFromApiLoop_succ]
    by_cases hs : (server offset).status
    · simp [hs, h]
    · simp [hs]
  | succ n ih =>
    intro server offset acc h
    have h' : ((server (offset + 10 + 10 * n)).finished.getD true) = true := by
      have e : offset + 10 * (n + 1) = offset + 10 + 10 * n := by ring
      rwa [e] at h
    rw [getTanksFromApiLoop_succ]
    by_cases hs : (server offset).status
    · by_cases hf : (server offset).finished.getD true
      · simp [hs, hf]
      · simp only [hs, hf]
        simpa using ih server (offset + 10) (acc ++ parsePage (server offset).data (offset + 1)) h'
    · simp [hs]

/-- C7 (amended): the paginated fetch terminates for every response sequence
in which some page's response signals completion through the `finished` flag
(explicitly true, or the key absent — it defaults to true); an empty data
array or a short batch is not a termination signal. -/
theorem spec_C7 (server : ℕ → TankApiResponse) (k : ℕ)
    (h : ((server (10 * k)).finished.getD true) = true) :
    FetchTerminates server :=
  ⟨k + 1, getTanksFromApiLoop_terminates k server 0 [] (by simpa using h)⟩

/-- Witness for C7: a server whose very first response omits the `finished`
key terminates the fetch. -/
theorem spec_C7_witness : FetchTerminates (fun _ => ⟨true, none, []⟩) :=
  spec_C7 (fun _ => ⟨true, none, []⟩) 0 rfl

/-- C9: when validation of a tank fails in a cycle (invalid size, invalid
level, calculation error — first conjunct) or its current volume is
unparseable (second conjunct), the step leaves `previous_readings` and
`consumption_totals` completely unchanged; only the record's frozen total,
zero rate and quality flag are written. -/
theorem spec_C9 (cfg : Config) (secs : ℚ) (s : CoordState) (t : Tank) (tid : String)
    (htid : t.tank_id = some tid) (hne : tid ≠ "") :
    (∀ (flags' : List (String × String)) (t₁ : Tank),
       validateTankData vendorA s.data_quality_flags t = (false, flags', t₁) →
       (processTankConsumption vendorA cfg secs s t).1.previous_readings
           = s.previous_readings ∧
       (processTankConsumption vendorA cfg secs s t).1.consumption_totals
           = s.consumption_totals ∧
       processTankConsumption vendorA cfg secs s t =
         ({ s with data_quality_flags := flags' },
          { t with
              consumption_total := some (totalOf s.consumption_totals tid)
              consumption_rate := some 0
              data_quality := some ((mget flags' tid).getD "unknown") })) ∧
    (∀ (flags' : List (String × String)) (t₁ : Tank),
       validateTankData vendorA s.data_quality_flags t = (true, flags', t₁) →
       pyFloat ((vendorA.getVol t₁).getD (.str "0")) = none →
       (processTankConsumption vendorA cfg secs s t).1.previous_readings
           = s.previous_readings ∧
       (processTankConsumption vendorA cfg secs s t).1.consumption_totals
           = s.consumption_totals ∧
       processTankConsumption vendorA cfg secs s t =
         ({ s with data_quality_flags := flags' },
          { t₁ with
              consumption_total := some (totalOf s.consumption_totals tid)
              consumption_rate := some 0
              data_quality := some "invalid_data" })) := by
  constructor
  · intro flags' t₁ hval
    have hfail : (validateTankData vendorA s.data_quality_flags t).1 = false := by
      rw [hval]
    have ht1 : (validateTankData vendorA s.data_quality_flags t).2.2 = t :=
      validateTankData_fail_tank vendorA s.data_quality_flags t hfail
    rw [hval] at ht1
    simp only [] at ht1
    rw [ht1] at hval
    have heq := processTank_valid_fail vendorA cfg secs s t tid flags' t htid hne hval
    refine ⟨by rw [heq], by rw [heq], ?_⟩
    rw [heq]
    simp [vendorA]
  · intro flags' t₁ hval hnone
    have heq := processTank_invalid_data vendorA cfg secs s t tid flags' t₁ htid hne hval
      (Or.inl hnone)
    exact ⟨by rw [heq], by rw [heq], heq⟩

/-- A Vendor A record with an unrealistic tank size (10 < TANK_SIZE_MIN). -/
def tankBadSize : Tank :=
  { tank_id := some "t1", tank_size := some (.str "10"), level := some (.str "50"),
    current_gallons := some (.str "5") }

/-- Witness for C9: a cycle on an invalid-size tank leaves the persisted maps
exactly as they were and freezes the record's display fields. -/
theorem spec_C9_witness :
    processTankConsumption vendorA ⟨true, none, none⟩ 3600
        ⟨[("t1", 260)], [("t1", 7)], []⟩ tankBadSize
      = (⟨[("t1", 260)], [("t1", 7)], [("t1", "invalid_tank_size")]⟩,
         { tankBadSize with
            consumption_total := some 7
            consumption_rate := some 0
            data_quality := some "invalid_tank_size" }) := by
  have h10 : pyFloat (PVal.str "10") = some 10 := by
    simp only [pyFloat]; rw [parsePyFloat_eval "10" false 10 0 0 (by decide)]; norm_num
  have hval : validateTankData vendorA [] tankBadSize
      = (false, [("t1", "invalid_tank_size")], tankBadSize) := by
    simp only [validateTankData, vendorA, tankBadSize, Option.getD, h10]
    norm_num [TANK_SIZE_MIN, TANK_SIZE_MAX, mset]
  have h := ((spec_C9 ⟨true, none, none⟩ 3600 ⟨[("t1", 260)], [("t1", 7)], []⟩ tankBadSize
      "t1" rfl (by decide)).1 [("t1", "invalid_tank_size")] tankBadSize hval).2.2
  rw [h]
  norm_num [totalOf, mget]

/-- One full processing step never decreases any cumulative total, whatever
branch it takes. -/
theorem processTank_mono (P : VendorParams) (hfac : 0 < P.factor) (cfg : Config)
    (secs : ℚ) (s : CoordState) (t : Tank) (id : String) :
    totalOf s.consumption_totals id
      ≤ totalOf (processTankConsumption P cfg secs s t).1.consumption_totals id := by
  rcases ht : t.tank_id with _ | tid
  · simp [processTankConsumption, ht]
  · by_cases hne : tid = ""
    · simp [processTankConsumption, ht, hne]
    · rcases hv : validateTankData P s.data_quality_flags t with ⟨ok, flags', t₁⟩
      cases ok with
      | false =>
        rw [processTank_valid_fail P cfg secs s t tid flags' t₁ ht hne hv]
      | true =>
        rcases hc : pyFloat ((P.getVol t₁).getD (.str "0")) with _ | cur
        · rw [processTank_invalid_data P cfg secs s t tid flags' t₁ ht hne hv (Or.inl hc)]
        · rcases hts : pyFloat (t₁.tank_size.getD (.num 500)) with _ | tsz
          · rw [processTank_invalid_data P cfg secs s t tid flags' t₁ ht hne hv (Or.inr hts)]
          · rw [processTank_main_state P cfg secs s t tid flags' t₁ cur tsz ht hne hv hc hts]
            simpa using consumptionBlock_mono P hfac _ _ tid cur
              s.previous_readings s.consumption_totals t₁ id

/-- C1 (amended): for a tank with a previous reading, one consumption step
behaves as follows — a negative raw delta sets `refill_detected` and leaves
the cumulative total unchanged; a zero delta leaves it unchanged; a positive
delta always adds delta * unit_conversion_factor (36.39 gallons→ft³ for
Vendor A, 0.272297 liters→m³ for Vendor B) whatever its relation to the
thresholds, and a delta above the high threshold additionally sets
`consumption_anomaly` provided it is not also below the low threshold (as is
always the case when low ≤ high, in particular for every dynamic-threshold
configuration); the cumulative total is monotonically non-decreasing across
steps. -/
theorem spec_C1 (P : VendorParams) (hP : P = vendorA ∨ P = vendorB)
    (cfg : Config) (secs : ℚ) (s : CoordState) (t : Tank) (tid : String)
    (flags' : List (String × String)) (t₁ : Tank) (cur tsz prev : ℚ)
    (htid : t.tank_id = some tid) (hne : tid ≠ "")
    (hval : validateTankData P s.data_quality_flags t = (true, flags', t₁))
    (hcur : pyFloat ((P.getVol t₁).getD (.str "0")) = some cur)
    (hts : pyFloat (t₁.tank_size.getD (.num 500)) = some tsz)
    (hprev : mget s.previous_readings tid = some prev) :
    (prev - cur < 0 →
      (processTankConsumption P cfg secs s t).2.refill_detected = some true ∧
      (processTankConsumption P cfg secs s t).1.consumption_totals
        = s.consumption_totals) ∧
    (prev - cur = 0 →
      (processTankConsumption P cfg secs s t).1.consumption_totals
        = s.consumption_totals) ∧
    (0 < prev - cur →
      totalOf (processTankConsumption P cfg secs s t).1.consumption_totals tid
        = totalOf s.consumption_totals tid + (prev - cur) * P.factor) ∧
    (0 < prev - cur →
      ¬ (prev - cur
          < (calculateDynamicThresholds cfg tsz (pymax 0.001 (secs / SECONDS_PER_HOUR))).1) →
      (calculateDynamicThresholds cfg tsz (pymax 0.001 (secs / SECONDS_PER_HOUR))).2
          < prev - cur →
      (processTankConsumption P cfg secs s t).2.consumption_anomaly = some true) ∧
    (vendorA.factor = 36.39 ∧ vendorB.factor = 0.272297) ∧
    (∀ (cfg' : Config) (secs' : ℚ) (s' : CoordState) (t' : Tank) (id : String),
       totalOf s'.consumption_totals id
         ≤ totalOf (processTankConsumption P cfg' secs' s' t').1.consumption_totals id) := by
  have hfac : 0 < P.factor := by
    rcases hP with h | h <;> subst h <;>
      norm_num [vendorA, vendorB, GALLONS_TO_CUBIC_FEET, LITERS_TO_CUBIC_METERS]
  have hstate := processTank_main_state P cfg secs s t tid flags' t₁ cur tsz htid hne hval hcur hts
  have hrefill := processTank_main_refill P cfg secs s t tid flags' t₁ cur tsz htid hne hval hcur hts
  have hanom := processTank_main_anomaly P cfg secs s t tid flags' t₁ cur tsz htid hne hval hcur hts
  simp only [] at hstate hrefill hanom
  refine ⟨fun hneg => ?_, fun hz => ?_, fun hpos => ?_, fun hpos hlow hhigh => ?_,
    ⟨rfl, rfl⟩, fun cfg' secs' s' t' id => processTank_mono P hfac cfg' secs' s' t' id⟩
  · constructor
    · rw [hrefill, consumptionBlock_refill P _ _ tid prev cur _ _ t₁ hprev hneg]
    · rw [hstate]
      simp only []
      rw [consumptionBlock_refill P _ _ tid prev cur _ _ t₁ hprev hneg]
  · rw [hstate]
    simp only []
    rw [consumptionBlock_zero P _ _ tid prev cur _ _ t₁ hprev hz]
  · rw [hstate]
    simp only []
    exact consumptionBlock_add P _ _ tid prev cur _ _ t₁ hprev hpos
  · rw [hanom]
    exact consumptionBlock_anomaly P _ _ tid prev cur _ _ t₁ hprev hpos hlow hhigh

/-- A valid Vendor A record reading 258 (size 500, level 50%). -/
def tankA258 : Tank :=
  { tank_id := some "t1", tank_size := some (.str "500"), level := some (.str "50"),
    current_gallons := some (.str "258") }

/-- C1, counterexample: with both threshold overrides configured as
min 5 / max 1 (the setup form accepts this — only the options flow validates
min < max), a delta of 2 lies above the high threshold yet sets no
`consumption_anomaly` flag, because the code checks `delta < min_threshold`
first and takes the low-consumption branch; the delta is still added. -/
theorem spec_C1_counterexample :
    (calculateDynamicThresholds ⟨true, some 5, some 1⟩ 500
        (pymax 0.001 (3600 / SECONDS_PER_HOUR))).2 = 1 ∧
    ((260 : ℚ) - 258 > 1) ∧
    (processTankConsumption vendorA ⟨true, some 5, some 1⟩ 3600
        ⟨[("t1", 260)], [], []⟩ tankA258).2.consumption_anomaly = none ∧
    totalOf (processTankConsumption vendorA ⟨true, some 5, some 1⟩ 3600
        ⟨[("t1", 260)], [], []⟩ tankA258).1.consumption_totals "t1"
      = 2 * GALLONS_TO_CUBIC_FEET := by
  have h500 : pyFloat (PVal.str "500") = some 500 := by
    simp only [pyFloat]; rw [parsePyFloat_eval "500" false 500 0 0 (by decide)]; norm_num
  have h50 : pyFloat (PVal.str "50") = some 50 := by
    simp only [pyFloat]; rw [parsePyFloat_eval "50" false 50 0 0 (by decide)]; norm_num
  have h258 : pyFloat (PVal.str "258") = some 258 := by
    simp only [pyFloat]; rw [parsePyFloat_eval "258" false 258 0 0 (by decide)]; norm_num
  have hval : validateTankData vendorA [] tankA258 = (true, [("t1", "good")], tankA258) := by
    simp only [validateTankData, vendorA, tankA258, Option.getD, h500, h50, h258]
    norm_num [TANK_SIZE_MIN, TANK_SIZE_MAX, PERCENT_MULTIPLIER, DATA_VALIDATION_TOLERANCE,
      mset, Tank.mk.injEq]
  have hcur : pyFloat ((vendorA.getVol tankA258).getD (.str "0")) = some 258 := by
    simpa [vendorA, tankA258] using h258
  have hts : pyFloat (tankA258.tank_size.getD (.num 500)) = some 500 := by
    simpa [tankA258] using h500
  have hprev : mget ([("t1", (260 : ℚ))]) "t1" = some 260 := by simp [mget]
  have hanom := processTank_main_anomaly vendorA ⟨true, some 5, some 1⟩ 3600
    ⟨[("t1", 260)], [], []⟩ tankA258 "t1" [("t1", "good")] tankA258 258 500
    rfl (by decide) hval hcur hts
  have hstate := processTank_main_state vendorA ⟨true, some 5, some 1⟩ 3600
    ⟨[("t1", 260)], [], []⟩ tankA258 "t1" [("t1", "good")] tankA258 258 500
    rfl (by decide) hval hcur hts
  simp only [] at hanom hstate
  refine ⟨rfl, by norm_num, ?_, ?_⟩
  · rw [hanom]
    have hblk : consumptionBlock vendorA
        (calculateDynamicThresholds ⟨true, some 5, some 1⟩ 500
          (pymax 0.001 (3600 / SECONDS_PER_HOUR))).1
        (calculateDynamicThresholds ⟨true, some 5, some 1⟩ 500
          (pymax 0.001 (3600 / SECONDS_PER_HOUR))).2
        "t1" 258 [("t1", 260)] [] tankA258
        = (mset (mset ([] : List (String × ℚ)) "t1" 0) "t1"
            ((mget (mset ([] : List (String × ℚ)) "t1" 0) "t1").getD 0
              + (260 - 258) * vendorA.factor), tankA258) := by
      rw [consumptionBlock]
      rw [hprev]
      norm_num [calculateDynamicThresholds, mget]
    rw [hblk]
    rfl
  · rw [hstate]
    simp only []
    rw [consumptionBlock_add vendorA _ _ "t1" 260 258 _ _ tankA258 hprev (by norm_num)]
    norm_num [totalOf, mget, vendorA]

/-- A valid Vendor A record reading 250 (size 500, level 50%). -/
def tankA250 : Tank :=
  { tank_id := some "t1", tank_size := some (.str "500"), level := some (.str "50"),
    current_gallons := some (.str "250") }

/-- Witness for C1 at a delta of 30 against the dynamic thresholds
(0.05, 25.0): the anomalous-high delta is recorded in full and flagged. -/
theorem spec_C1_witness :
    (processTankConsumption vendorA ⟨true, none, none⟩ 3600
        ⟨[("t1", 280)], [("t1", 1)], []⟩ tankA250).2.consumption_anomaly = some true ∧
    totalOf (processTankConsumption vendorA ⟨true, none, none⟩ 3600
        ⟨[("t1", 280)], [("t1", 1)], []⟩ tankA250).1.consumption_totals "t1"
      = 1 + 30 * GALLONS_TO_CUBIC_FEET := by
  have h500 : pyFloat (PVal.str "500") = some 500 := by
    simp only [pyFloat]; rw [parsePyFloat_eval "500" false 500 0 0 (by decide)]; norm_num
  have h50 : pyFloat (PVal.str "50") = some 50 := by
    simp only [pyFloat]; rw [parsePyFloat_eval "50" false 50 0 0 (by decide)]; norm_num
  have h250 : pyFloat (PVal.str "250") = some 250 := by
    simp only [pyFloat]; rw [parsePyFloat_eval "250" false 250 0 0 (by decide)]; norm_num
  have hval : validateTankData vendorA [] tankA250 = (true, [("t1", "good")], tankA250) := by
    simp only [validateTankData, vendorA, tankA250, Option.getD, h500, h50, h250]
    norm_num [TANK_SIZE_MIN, TANK_SIZE_MAX, PERCENT_MULTIPLIER, DATA_VALIDATION_TOLERANCE,
      mset, Tank.mk.injEq]
  have hcur : pyFloat ((vendorA.getVol tankA250).getD (.str "0")) = some 250 := by
    simpa [vendorA, tankA250] using h250
  have hts : pyFloat (tankA250.tank_size.getD (.num 500)) = some 500 := by
    simpa [tankA250] using h500
  have hprev : mget ([("t1", (280 : ℚ))]) "t1" = some 280 := by simp [mget]
  have h := spec_C1 vendorA (Or.inl rfl) ⟨true, none, none⟩ 3600
    ⟨[("t1", 280)], [("t1", 1)], []⟩ tankA250 "t1" [("t1", "good")] tankA250 250 500 280
    rfl (by decide) hval hcur hts hprev
  have hthr : calculateDynamicThresholds ⟨true, none, none⟩ 500
      (pymax 0.001 (3600 / SECONDS_PER_HOUR)) = (0.05, 25.0) := by
    norm_num [calculateDynamicThresholds, pymax, pymin, ABSOLUTE_MIN_CONSUMPTION,
      ABSOLUTE_MAX_CONSUMPTION, MIN_CONSUMPTION_PERCENTAGE, MAX_CONSUMPTION_PERCENTAGE,
      SECONDS_PER_HOUR]
  constructor
  · exact h.2.2.2.1 (by norm_num) (by rw [hthr]; norm_num) (by rw [hthr]; norm_num)
  · have hadd := h.2.2.1 (by norm_num)
    rw [hadd]
    norm_num [totalOf, mget, vendorA, GALLONS_TO_CUBIC_FEET]

end SuperiorPropane
